import Mathlib

/-!
Shallow embedding of the repository `azure-openai-api-test`:
two Python scripts, `azure_openai_chat.py` (an interactive chat client with a
static model registry) and `azure_openai_test.py` (a connection smoke test).
Pure data and the decision logic of both scripts are translated into Lean
definitions; the terminal and the remote HTTP service are modelled as
external events fed into the step functions.
-/

/-- Roles of a chat message, as in the `"role"` field of the Python dicts. -/
inductive Role
  | system
  | user
  | assistant
deriving DecidableEq, Repr

/-- A transcript message: `{"role": ..., "content": ...}` in the Python code. -/
structure Message where
  role : Role
  content : String
deriving DecidableEq, Repr

/-- One entry of the static registry `MODEL_DOCUMENTATION` in
`azure_openai_chat.py` (all fields are kept exactly as the source stores
them; in particular `max_output_tokens` is a display string such as
`"8,192 tokens"` that the request builder parses at each turn). -/
structure ModelEntry where
  official_name : String
  description : String
  api_version : String
  context_window : String
  max_output_tokens : String
  token_param_name : String
  supports_vision : Bool
  supports_function_calling : Bool
  documentation_url : String
deriving DecidableEq, Repr

/-- The `"gpt-4.1"` entry of `MODEL_DOCUMENTATION`. -/
def entry_gpt41 : ModelEntry :=
  { official_name := "gpt-4o"
  , description := "Flagship multimodal model. Best performance, supports text and image analysis."
  , api_version := "2024-05-01-preview"
  , context_window := "128,000 tokens"
  , max_output_tokens := "8,192 tokens"
  , token_param_name := "max_completion_tokens"
  , supports_vision := true
  , supports_function_calling := true
  , documentation_url := "https://learn.microsoft.com/en-us/azure/ai-services/openai/concepts/models#gpt-4-and-gpt-4-turbo-models" }

/-- The `"gpt-4.1-nano"` entry of `MODEL_DOCUMENTATION`. -/
def entry_gpt41_nano : ModelEntry :=
  { official_name := "gpt-4o-mini"
  , description := "A smaller, faster, and more economical model. Excellent for high-throughput tasks."
  , api_version := "2024-12-01-preview"
  , context_window := "128,000 tokens"
  , max_output_tokens := "16,384 tokens"
  , token_param_name := "max_completion_tokens"
  , supports_vision := false
  , supports_function_calling := true
  , documentation_url := "https://learn.microsoft.com/en-us/azure/ai-services/openai/concepts/models#gpt-4o-and-gpt-4o-mini" }

/-- The `"o4-mini"` entry of `MODEL_DOCUMENTATION`. -/
def entry_o4_mini : ModelEntry :=
  { official_name := "gpt-4o-mini"
  , description := "A smaller, faster, and more economical model. Excellent for high-throughput tasks."
  , api_version := "2024-12-01-preview"
  , context_window := "128,000 tokens"
  , max_output_tokens := "16,384 tokens"
  , token_param_name := "max_completion_tokens"
  , supports_vision := false
  , supports_function_calling := true
  , documentation_url := "https://learn.microsoft.com/en-us/azure/ai-services/openai/concepts/models#gpt-4o-and-gpt-4o-mini" }

/-- The static registry `MODEL_DOCUMENTATION` of `azure_openai_chat.py`, as an
association list in the dict's insertion order (Python dicts preserve it). -/
def model_docs : List (String × ModelEntry) :=
  [ ("gpt-4.1", entry_gpt41)
  , ("gpt-4.1-nano", entry_gpt41_nano)
  , ("o4-mini", entry_o4_mini) ]

/-- Python `str.lower()` applied character-wise; for the ASCII strings compared
against the exit commands this coincides with full Unicode lowering. -/
def pyLower (s : String) : String :=
  String.mk (s.data.map Char.toLower)

/-- The exit-command set tested by `user_input.lower() in ["exit", "quit", "q"]`. -/
def EXIT_COMMANDS : List String :=
  ["exit", "quit", "q"]

/-- Whitespace splitting of a character list: the words are accumulated in
`cur` (reversed) and empty pieces are dropped, as Python `s.split()` does. -/
def pyWordsAux : List Char → List Char → List (List Char)
  | [], cur => if cur.isEmpty then [] else [cur.reverse]
  | c :: cs, cur =>
      if c.isWhitespace then
        if cur.isEmpty then pyWordsAux cs [] else cur.reverse :: pyWordsAux cs []
      else
        pyWordsAux cs (c :: cur)

/-- Python `s.split()`: split on whitespace, dropping empty pieces. -/
def pySplit (s : String) : List String :=
  (pyWordsAux s.data []).map String.mk

/-- Python `s.replace(",", "")`. -/
def removeCommas (s : String) : String :=
  String.mk (s.data.filter (fun c => c != ','))

/-- Python `int(s)` on the strings this program feeds it: a non-empty
all-digit string parses to its decimal value, anything else raises
(modelled as `none`). -/
def pyInt (s : String) : Option Nat :=
  if !s.data.isEmpty && s.data.all Char.isDigit then
    some (s.data.foldl (fun n c => n * 10 + (c.toNat - 48)) 0)
  else
    none

/-- The token-limit value consumed by the request builder:
`int(model_info["max_output_tokens"].split()[0].replace(",", ""))` at
`azure_openai_chat.py:180`. `none` models the exception path (empty split or a
non-digit-string argument to `int`). -/
def maxTokensValue (model_info : ModelEntry) : Option Nat :=
  match (pySplit model_info.max_output_tokens).head? with
  | none => none
  | some w => pyInt (removeCommas w)

/-- The request dict `chat_params` built at `azure_openai_chat.py:182-186`:
the deployment name, the message list passed in full, and a single
output-limiting field held as one (name, value) pair — the dict literal has
exactly one dynamic key, so the request carries exactly one such field. -/
structure ChatRequest where
  model : String
  messages : List Message
  tokenField : String × Nat
deriving DecidableEq, Repr

/-- What the outside world does during the network/render part of one turn
whose input line was not an exit command. -/
inductive TurnOutcome
  | success (reply : String)
  | requestError
  | renderError (reply : String)
deriving DecidableEq, Repr

/-- What the outside world does at the start of one loop iteration:
the prompt yields a line, the prompt raises a non-interrupt exception
(for example `EOFError` when stdin is closed), or `KeyboardInterrupt`. -/
inductive TurnEvent
  | inputLine (line : String) (outcome : TurnOutcome)
  | inputError
  | interrupt
deriving DecidableEq, Repr

/-- Status of the session loop after a turn. `crashed` models an uncaught
`IndexError` from `messages.pop()` on an empty list inside the `except`
handler, which escapes the loop and terminates the process. -/
inductive LoopStatus
  | running
  | exited
  | crashed
deriving DecidableEq, Repr

/-- The result of one loop iteration: the loop status, the transcript after
the iteration, and the request sent over the network this turn (if any). -/
structure TurnResult where
  status : LoopStatus
  messages : List Message
  sent : Option ChatRequest
deriving DecidableEq, Repr

/-- One iteration of the `while True` loop of `run_chat_session`
(`azure_openai_chat.py:165-203`). The `except Exception` handler prints the
error and pops the last message unconditionally; `List.dropLast` models
`messages.pop()` on a non-empty list and `crashed` the pop on an empty one. -/
def run_chat_session_step (model_name : String) (model_info : ModelEntry)
    (messages : List Message) (ev : TurnEvent) : TurnResult :=
  match ev with
  | .interrupt => ⟨.exited, messages, none⟩
  | .inputError =>
      match messages with
      | [] => ⟨.crashed, [], none⟩
      | _ :: _ => ⟨.running, messages.dropLast, none⟩
  | .inputLine user_input outcome =>
      if EXIT_COMMANDS.contains (pyLower user_input) then
        ⟨.exited, messages, none⟩
      else
        let messages1 : List Message := messages ++ [⟨.user, user_input⟩]
        match maxTokensValue model_info with
        | none => ⟨.running, messages1.dropLast, none⟩
        | some v =>
            let req : ChatRequest := ⟨model_name, messages1, (model_info.token_param_name, v)⟩
            match outcome with
            | .success reply => ⟨.running, messages1 ++ [⟨.assistant, reply⟩], some req⟩
            | .requestError => ⟨.running, messages1.dropLast, some req⟩
            | .renderError reply => ⟨.running, (messages1 ++ [(⟨.assistant, reply⟩ : Message)]).dropLast, some req⟩

/-- The initial transcript of `run_chat_session` (`azure_openai_chat.py:164`). -/
def initial_messages : List Message :=
  [⟨.system, "You are a helpful AI assistant."⟩]

/-- The session loop run over a finite trace of turn events, stopping when a
turn leaves the `running` status. -/
def run_chat_session_loop (model_name : String) (model_info : ModelEntry) :
    List Message → List TurnEvent → LoopStatus × List Message
  | messages, [] => (.running, messages)
  | messages, ev :: rest =>
      let r := run_chat_session_step model_name model_info messages ev
      match r.status with
      | .running => run_chat_session_loop model_name model_info r.messages rest
      | s => (s, r.messages)

/-- The two environment variables read at startup; `none` is unset. -/
structure Env where
  endpoint : Option String
  api_key : Option String
deriving DecidableEq, Repr

/-- Python truthiness of an `os.getenv` result: `None` and `""` are falsy. -/
def truthy : Option String → Bool
  | none => false
  | some s => s != ""

/-- Result of `create_azure_openai_client`: either `sys.exit(1)` on missing
configuration, or an `AzureOpenAI` client handle holding the endpoint, key
and the `api_version` argument it was constructed with. -/
inductive ClientResult
  | configError
  | ok (endpoint api_key api_version : String)
deriving DecidableEq, Repr

/-- The client factory `create_azure_openai_client`
(`azure_openai_chat.py:118-130`): exits when either environment variable is
unset or empty, otherwise builds the client with the given `api_version`. -/
def create_azure_openai_client (env : Env) (api_version : String) : ClientResult :=
  if truthy env.endpoint && truthy env.api_key then
    .ok (env.endpoint.getD "") (env.api_key.getD "") api_version
  else
    .configError

/-- Outcome of the startup phase of `run_chat_session`
(`azure_openai_chat.py:145-158`), up to the first network call:
`unknownModel keys` is the `sys.exit(1)` before any client exists, listing the
registry's deployment names; `configError` the exit inside the client factory;
`verifying info v` means a client was created with api version `v` and the
script proceeds to `verify_model_availability`, the first network call. -/
inductive ChatStartup
  | unknownModel (known : List String)
  | configError (info : ModelEntry)
  | verifying (info : ModelEntry) (api_version : String)
deriving DecidableEq, Repr

/-- The startup phase of `run_chat_session`: registry lookup, then the client
factory called with the matched entry's `api_version`, then verification. -/
def run_chat_session_startup (env : Env) (model_name : String) : ChatStartup :=
  match model_docs.lookup model_name with
  | none => .unknownModel (model_docs.map Prod.fst)
  | some model_info =>
      match create_azure_openai_client env model_info.api_version with
      | .configError => .configError model_info
      | .ok _ _ v => .verifying model_info v

/-- Outcome of the startup phase of `test_azure_openai_connection`
(`azure_openai_test.py:13-40`): `configError` is the `sys.exit(1)` when the
API key is missing; `connecting e v` means a client was built with endpoint
`e` and api version `v` and the script proceeds to list models (network). -/
inductive TestStartup
  | configError
  | connecting (endpoint api_version : String)
deriving DecidableEq, Repr

/-- The startup phase of the smoke test: the endpoint falls back to a
hard-coded default when the variable is unset, only the API key is checked,
and the client is always built with the literal api version
`"2023-12-01-preview"`. -/
def test_azure_openai_connection_startup (env : Env) : TestStartup :=
  let endpoint := env.endpoint.getD "https://temporarytesting.openai.azure.com/"
  if truthy env.api_key then
    .connecting endpoint "2023-12-01-preview"
  else
    .configError

/-- One row of the documentation table built by `display_documentation`
(`azure_openai_chat.py:100-113`). -/
structure DocRow where
  deployment : String
  official : String
  apiVersion : String
  tokenParam : String
  maxOutput : String
  vision : String
  description : String
deriving DecidableEq, Repr

/-- The row `display_documentation` adds for one registry item. -/
def docRow (name : String) (details : ModelEntry) : DocRow :=
  { deployment := name
  , official := details.official_name
  , apiVersion := details.api_version
  , tokenParam := details.token_param_name
  , maxOutput := details.max_output_tokens
  , vision := if details.supports_vision then "Yes" else "No"
  , description := details.description ++ "\n[dim][link=" ++ details.documentation_url ++ "]Official Docs[/link][/dim]" }

/-- The full output of `display_documentation`: the table rows in registry
order plus the endpoint footer line (`AZURE_OPENAI_ENDPOINT or 'Not Set'`). -/
structure DocOutput where
  rows : List DocRow
  endpointLine : String
deriving DecidableEq, Repr

/-- The renderer `display_documentation` (`azure_openai_chat.py:81-115`), as a
pure function of the registry it iterates and the endpoint variable it
footnotes. -/
def display_docs (registry : List (String × ModelEntry)) (endpoint : Option String) : DocOutput :=
  { rows := registry.map (fun p => docRow p.1 p.2)
  , endpointLine := if truthy endpoint then endpoint.getD "" else "[bold red]Not Set[/bold red]" }

/-- The token-limit field names occurring in the repository's request
builders: `"max_completion_tokens"` in the chat client's registry-driven
request (`azure_openai_chat.py:47`) and `"max_tokens"` in the smoke test's
request (`azure_openai_test.py:77`). -/
def recognizedTokenParamNames : List String :=
  ["max_tokens", "max_completion_tokens"]

/-- Helper: a successful association-list lookup found a pair of the list. -/
theorem lookup_mem {α β : Type} [BEq α] [LawfulBEq α] {l : List (α × β)} {a : α} {b : β}
    (h : l.lookup a = some b) : (a, b) ∈ l := by
  induction l with
  | nil => simp at h
  | cons p t ih =>
      obtain ⟨k, v⟩ := p
      rw [List.lookup_cons] at h
      cases hk : a == k with
      | true =>
          rw [hk] at h
          simp only [Option.some.injEq] at h
          subst h
          have hak : a = k := eq_of_beq hk
          subst hak
          exact List.mem_cons_self _ _
      | false =>
          rw [hk] at h
          exact List.mem_cons_of_mem _ (ih h)

/-- Claim C1: whenever a session turn sends a request to the remote service,
that request carries the full transcript — every message appended so far,
including the just-appended user message, never a windowed subset — together
with exactly one output-limiting field (the single `tokenField` pair of the
request) whose name is the matched ModelEntry's `token_param_name` and whose
value is the integer the request builder parses out of that entry's
`max_output_tokens`. -/
theorem c1_request_full_transcript_single_token_field
    (model_name : String) (model_info : ModelEntry)
    (messages : List Message) (line : String) (outcome : TurnOutcome) (req : ChatRequest)
    (h : (run_chat_session_step model_name model_info messages (.inputLine line outcome)).sent = some req) :
    req.model = model_name ∧
    req.messages = messages ++ [⟨.user, line⟩] ∧
    req.tokenField.1 = model_info.token_param_name ∧
    maxTokensValue model_info = some req.tokenField.2 := by
  by_cases hex : pyLower line ∈ EXIT_COMMANDS
  · simp [run_chat_session_step, hex] at h
  · rcases hv : maxTokensValue model_info with _ | v
    · simp [run_chat_session_step, hex, hv] at h
    · cases outcome <;> simp [run_chat_session_step, hex, hv] at h <;>
        (subst h; exact ⟨rfl, rfl, rfl, rfl⟩)

/-- Witness for C1: the spec's own scenario — input `"hello"` against the
`"gpt-4.1"` entry sends the whole transcript plus `max_completion_tokens = 8192`. -/
theorem c1_request_full_transcript_single_token_field_witness :
    (⟨"gpt-4.1", initial_messages ++ [⟨.user, "hello"⟩], ("max_completion_tokens", 8192)⟩ : ChatRequest).model = "gpt-4.1" ∧
    (⟨"gpt-4.1", initial_messages ++ [⟨.user, "hello"⟩], ("max_completion_tokens", 8192)⟩ : ChatRequest).messages =
      initial_messages ++ [⟨.user, "hello"⟩] ∧
    (⟨"gpt-4.1", initial_messages ++ [⟨.user, "hello"⟩], ("max_completion_tokens", 8192)⟩ : ChatRequest).tokenField.1 =
      entry_gpt41.token_param_name ∧
    maxTokensValue entry_gpt41 =
      some (⟨"gpt-4.1", initial_messages ++ [⟨.user, "hello"⟩], ("max_completion_tokens", 8192)⟩ : ChatRequest).tokenField.2 :=
  c1_request_full_transcript_single_token_field "gpt-4.1" entry_gpt41 initial_messages "hello"
    (.success "hi there")
    ⟨"gpt-4.1", initial_messages ++ [⟨.user, "hello"⟩], ("max_completion_tokens", 8192)⟩ (by decide)

/-- Claim C2: when the completion call of a non-exit turn raises
(`RequestError`), the handler pops exactly the just-appended user message,
so the transcript after the handler is the very list it was before the turn
began (in particular its length is restored) and the loop keeps running. -/
theorem c2_request_error_rollback (model_name : String) (model_info : ModelEntry)
    (messages : List Message) (line : String)
    (h : pyLower line ∉ EXIT_COMMANDS) :
    (run_chat_session_step model_name model_info messages (.inputLine line .requestError)).messages = messages ∧
    (run_chat_session_step model_name model_info messages (.inputLine line .requestError)).status = .running := by
  rcases hv : maxTokensValue model_info with _ | v <;>
    simp [run_chat_session_step, h, hv]

/-- Witness for C2: a failing `"hello"` turn leaves the fresh transcript
exactly as it was. -/
theorem c2_request_error_rollback_witness :
    (run_chat_session_step "gpt-4.1" entry_gpt41 initial_messages (.inputLine "hello" .requestError)).messages =
      initial_messages ∧
    (run_chat_session_step "gpt-4.1" entry_gpt41 initial_messages (.inputLine "hello" .requestError)).status =
      .running :=
  c2_request_error_rollback "gpt-4.1" entry_gpt41 initial_messages "hello" (by decide)

/-- Claim C3: any input line whose lowercase form is one of `"exit"`,
`"quit"`, `"q"` (hence also `"EXIT"`, `"Quit"`, `"Q"`) moves the loop to the
`exited` state with the transcript untouched and nothing sent over the
network (`sent = none`), whatever the remote service would have answered. -/
theorem c3_exit_case_insensitive_no_append_no_network
    (model_name : String) (model_info : ModelEntry)
    (messages : List Message) (line : String) (outcome : TurnOutcome)
    (h : pyLower line ∈ EXIT_COMMANDS) :
    run_chat_session_step model_name model_info messages (.inputLine line outcome) =
      ⟨.exited, messages, none⟩ := by
  simp [run_chat_session_step, h]

/-- Witness for C3: the uppercase input `"EXIT"` exits without appending or
sending. -/
theorem c3_exit_case_insensitive_no_append_no_network_witness :
    run_chat_session_step "gpt-4.1" entry_gpt41 initial_messages (.inputLine "EXIT" (.success "ignored")) =
      ⟨.exited, initial_messages, none⟩ :=
  c3_exit_case_insensitive_no_append_no_network "gpt-4.1" entry_gpt41 initial_messages "EXIT"
    (.success "ignored") (by decide)

/-- Claim C4: every deployment identifier present in the registry looks up to
an entry whose `token_param_name` is one of the recognized field names and
whose `max_output_tokens`, as parsed by the request builder, is a positive
integer (`isSome` with a positive value). -/
theorem c4_registry_token_param_recognized_and_positive (name : String) (info : ModelEntry)
    (h : model_docs.lookup name = some info) :
    info.token_param_name ∈ recognizedTokenParamNames ∧
    (maxTokensValue info).isSome = true ∧
    0 < (maxTokensValue info).getD 0 := by
  have hm := lookup_mem h
  simp only [model_docs, List.mem_cons, List.not_mem_nil, or_false, Prod.mk.injEq] at hm
  rcases hm with ⟨-, rfl⟩ | ⟨-, rfl⟩ | ⟨-, rfl⟩ <;> exact ⟨by decide, by decide, by decide⟩

/-- Witness for C4: the `"gpt-4.1"` entry has a recognized token parameter
name and parses to the positive limit 8192. -/
theorem c4_registry_token_param_recognized_and_positive_witness :
    entry_gpt41.token_param_name ∈ recognizedTokenParamNames ∧
    (maxTokensValue entry_gpt41).isSome = true ∧
    0 < (maxTokensValue entry_gpt41).getD 0 :=
  c4_registry_token_param_recognized_and_positive "gpt-4.1" entry_gpt41 (by decide)

/-- Claim C5: a deployment identifier absent from the registry makes the
chat-session startup stop in the `unknownModel` outcome, which lists the
known identifiers and is reached before the client factory runs and before
the verification step that makes the first network call (those are the
`configError` and `verifying` outcomes, not produced here). -/
theorem c5_unknown_deployment_exits_before_client (env : Env) (name : String)
    (h : model_docs.lookup name = none) :
    run_chat_session_startup env name = .unknownModel ["gpt-4.1", "gpt-4.1-nano", "o4-mini"] := by
  simp only [run_chat_session_startup, h]
  rfl

/-- Witness for C5: asking for the unknown deployment `"gpt-5"` exits listing
the three known identifiers even with full credentials configured. -/
theorem c5_unknown_deployment_exits_before_client_witness :
    run_chat_session_startup ⟨some "https://example.invalid/", some "key"⟩ "gpt-5" =
      .unknownModel ["gpt-4.1", "gpt-4.1-nano", "o4-mini"] :=
  c5_unknown_deployment_exits_before_client ⟨some "https://example.invalid/", some "key"⟩ "gpt-5"
    (by decide)

/-- Counterexample to C6: with the endpoint variable unset but the API key
set, the smoke test does not fail — it substitutes its hard-coded default
endpoint and proceeds toward the network, so not every program in the
repository treats a missing endpoint as a fatal configuration error. -/
theorem c6_counterexample_test_default_endpoint :
    test_azure_openai_connection_startup ⟨none, some "test-key"⟩ =
      .connecting "https://temporarytesting.openai.azure.com/" "2023-12-01-preview" ∧
    test_azure_openai_connection_startup ⟨none, some "test-key"⟩ ≠ .configError := by
  decide

/-- Claim C6 as amended: if the API key variable is empty or unset, both
programs fail with a fatal configuration error before any network activity;
if the endpoint variable is empty or unset, the chat client fails likewise,
while the smoke test instead falls back to a hard-coded default endpoint. -/
theorem c6_amended_config_errors (env : Env) (name : String) (info : ModelEntry)
    (hl : model_docs.lookup name = some info) :
    (truthy env.api_key = false →
      run_chat_session_startup env name = .configError info ∧
      test_azure_openai_connection_startup env = .configError) ∧
    (truthy env.endpoint = false →
      run_chat_session_startup env name = .configError info) := by
  refine ⟨fun hk => ⟨?_, ?_⟩, fun he => ?_⟩
  · simp [run_chat_session_startup, hl, create_azure_openai_client, hk]
  · simp [test_azure_openai_connection_startup, hk]
  · simp [run_chat_session_startup, hl, create_azure_openai_client, he]

/-- Witness for the amended C6: with both variables unset, a `"gpt-4.1"` chat
session and the smoke test both stop with a configuration error. -/
theorem c6_amended_config_errors_witness :
    run_chat_session_startup ⟨none, none⟩ "gpt-4.1" = .configError entry_gpt41 ∧
    test_azure_openai_connection_startup ⟨none, none⟩ = .configError :=
  (c6_amended_config_errors ⟨none, none⟩ "gpt-4.1" entry_gpt41 (by decide)).1 (by decide)

/-- Counterexample to C7: the smoke test constructs its client with the fixed
literal `"2023-12-01-preview"`, which is not the `api_version` of any
registry entry, so the api version handed to the client constructor is not
always taken from a matched ModelEntry. -/
theorem c7_counterexample_test_fixed_api_version :
    test_azure_openai_connection_startup ⟨some "https://example.invalid/", some "key"⟩ =
      .connecting "https://example.invalid/" "2023-12-01-preview" ∧
    entry_gpt41.api_version ≠ "2023-12-01-preview" ∧
    entry_gpt41_nano.api_version ≠ "2023-12-01-preview" ∧
    entry_o4_mini.api_version ≠ "2023-12-01-preview" := by
  decide

/-- Claim C7 as amended: in the chat client the api version passed to the
client factory always equals the `api_version` of the ModelEntry matched for
the requested deployment; the smoke test instead uses a fixed literal. -/
theorem c7_amended_chat_api_version_from_entry (env : Env) (name : String)
    (info : ModelEntry) (v : String)
    (h : run_chat_session_startup env name = .verifying info v) :
    v = info.api_version := by
  unfold run_chat_session_startup at h
  rcases hl : model_docs.lookup name with _ | info2 <;> rw [hl] at h
  · simp at h
  · by_cases hc : (truthy env.endpoint && truthy env.api_key) = true
    · simp [create_azure_openai_client, hc] at h
      obtain ⟨rfl, rfl⟩ := h
      rfl
    · simp [create_azure_openai_client, hc] at h

/-- Witness for the amended C7: a fully configured `"gpt-4.1"` session builds
its client with that entry's `"2024-05-01-preview"`. -/
theorem c7_amended_chat_api_version_from_entry_witness :
    "2024-05-01-preview" = entry_gpt41.api_version :=
  c7_amended_chat_api_version_from_entry ⟨some "https://example.invalid/", some "key"⟩ "gpt-4.1"
    entry_gpt41 "2024-05-01-preview" (by decide)

/-- Claim C8, evaluated at the failing input: two consecutive prompt-phase
errors (for example `EOFError` twice after stdin closes) drive the fresh
session into the `crashed` state — the first error's handler pops the system
message, the second error's handler pops an empty list, and the resulting
`IndexError` is raised inside the `except` block, escapes the loop and
terminates the process, contradicting the claim that in-session errors never
terminate it. -/
theorem c8_consecutive_input_errors_crash :
    run_chat_session_loop "gpt-4.1" entry_gpt41 initial_messages [.inputError, .inputError] =
      (.crashed, []) := by
  decide

/-- Claim C9: the documentation renderer is a deterministic function of the
registry it iterates and the endpoint variable it displays — two invocations
on the same (unchanged) inputs produce identical output. -/
theorem c9_display_docs_deterministic (r1 r2 : List (String × ModelEntry)) (e1 e2 : Option String)
    (h1 : r1 = r2) (h2 : e1 = e2) :
    display_docs r1 e1 = display_docs r2 e2 := by
  rw [h1, h2]

/-- Witness for C9: rendering the concrete registry twice gives equal output. -/
theorem c9_display_docs_deterministic_witness :
    display_docs model_docs (some "https://example.invalid/") =
      display_docs model_docs (some "https://example.invalid/") :=
  c9_display_docs_deterministic model_docs model_docs (some "https://example.invalid/")
    (some "https://example.invalid/") rfl rfl

/-- Claim C10: the in-session error handler pops the last message whatever it
is. Concretely: an error at the input prompt of a fresh session removes the
initial system message, leaving a transcript that no longer begins with the
system message while the loop keeps running; the same error after a completed
exchange removes the previous assistant reply; and an error raised after the
assistant message was appended (a render failure) removes that assistant
message — in each case the removed message is not a just-appended user
message. -/
theorem c10_error_handler_pops_wrong_message :
    (run_chat_session_step "gpt-4.1" entry_gpt41 initial_messages .inputError).messages = [] ∧
    (run_chat_session_step "gpt-4.1" entry_gpt41 initial_messages .inputError).status = .running ∧
    (run_chat_session_step "gpt-4.1" entry_gpt41
        (initial_messages ++ [⟨.user, "hello"⟩, ⟨.assistant, "hi there"⟩]) .inputError).messages =
      initial_messages ++ [⟨.user, "hello"⟩] ∧
    (run_chat_session_step "gpt-4.1" entry_gpt41 initial_messages
        (.inputLine "hello" (.renderError "hi there"))).messages =
      initial_messages ++ [⟨.user, "hello"⟩] := by
  decide
